/-
Verification of the chat route orchestrator
(`src/app/(chat)/api/chat/route.ts`) of the ai-chatbot repository.

The route's control flow is embedded shallowly: the `POST` turn-submission
handler and the `DELETE` conversation handler are modelled as pure functions
from an environment (session returned by `auth()`, store contents, fresh UUID,
engine behaviour) to an HTTP response together with an ordered trace of
observable effects (store calls, stream writes, log lines).  Collaborators
that are part of the repository but whose sources are not provided
(`sanitizeResponseMessages` and `getMostRecentUserMessage` from `@/lib/utils`,
the streaming engine contract) are modelled from the specification and marked
as such in their doc comments.
-/
import Mathlib

namespace ChatRoute

/-- Role of a message, mirroring the `role` field of the `ai` package's
message types (`user` / `assistant` / `tool` / `system`). -/
inductive Role
  | user
  | assistant
  | tool
  | system
deriving Repr, DecidableEq

/-- A fragment of a generated message's structured content: plain text, a
tool-call issued by the model (identified by its call id), or the matching
tool result.  Mirrors the content parts of the `ai` package's response
messages, which `sanitizeResponseMessages` filters. -/
inductive Part
  | text (s : String)
  | toolCall (callId : String)
  | toolResult (callId : String)
deriving Repr, DecidableEq

/-- An inbound client message (the `ai` package's `Message`): plain-text
content with an id and a role.  `POST` destructures exactly these fields. -/
structure Message where
  id : String
  role : Role
  content : String
deriving Repr, DecidableEq

/-- A message produced by one generation turn, as delivered to `onFinish` in
`response.messages`: it carries the id assigned by the generation engine and
structured content parts. -/
structure RespMessage where
  id : String
  role : Role
  content : List Part
deriving Repr, DecidableEq

/-- A chat record as stored by `saveChat` and read by `getChatById`:
`{ id, userId, title }` (the `createdAt` column plays no role in the route's
logic). -/
structure Chat where
  id : String
  userId : String
  title : String
deriving Repr, DecidableEq

/-- Content of a stored message row: the inbound user message is stored with
its plain string content, the finish-time write-back stores the structured
content of the generated messages. -/
inductive MsgContent
  | str (s : String)
  | parts (ps : List Part)
deriving Repr, DecidableEq

/-- A row passed to `saveMessages`: `{ id, chatId, role, content, createdAt }`.
The clock is modelled as a natural number supplied by the environment. -/
structure StoredMessage where
  id : String
  chatId : String
  role : Role
  content : MsgContent
  createdAt : Nat
deriving Repr, DecidableEq

/-- The sanitizer and its helpers. `sanitizeResponseMessages` lives in
`@/lib/utils`, which is not among the provided sources; it is modelled from
the spec (§4.2): a pure transform over the ordered message list of one turn
that removes every message or fragment representing a tool call never matched
by a corresponding tool result, and does not alter order or any complete
message. -/
def toResultId : Part → Option String
  | Part.toolResult c => some c
  | _ => none

/-- The call ids of all tool results occurring anywhere in the message list;
a tool-call fragment is complete exactly when its call id occurs here. -/
def resultIds : List RespMessage → List String
  | [] => []
  | m :: ms => m.content.filterMap toResultId ++ resultIds ms

/-- Whether a content fragment survives sanitization, given the call ids of
the available tool results: a tool call survives iff it is matched; text and
tool results always survive. -/
def keepPart (rids : List String) : Part → Bool
  | Part.toolCall c => rids.contains c
  | _ => true

/-- Remove the unmatched tool-call fragments from one message's content. -/
def filterMsg (rids : List String) (m : RespMessage) : RespMessage :=
  { m with content := m.content.filter (keepPart rids) }

/-- Sanitize against a fixed set of result ids: filter every message's
fragments, then drop messages whose content is left (or was) empty. -/
def sanitizeWith (rids : List String) (ms : List RespMessage) : List RespMessage :=
  (ms.map (filterMsg rids)).filter fun m => !m.content.isEmpty

/-- Modelled from the spec: `sanitizeResponseMessages` (from `@/lib/utils`,
not under the provided sources) removes every tool-call fragment lacking a
matching tool result in the same turn, and every message thereby left without
content, preserving the order of, and not altering, everything else. -/
def sanitizeResponseMessages (ms : List RespMessage) : List RespMessage :=
  sanitizeWith (resultIds ms) ms

theorem filterMap_toResultId_filter (rids : List String) (ps : List Part) :
    (ps.filter (keepPart rids)).filterMap toResultId = ps.filterMap toResultId := by
  induction ps with
  | nil => rfl
  | cons p ps ih =>
    cases p with
    | text s =>
      simp [List.filter_cons, keepPart, List.filterMap_cons, toResultId, ih]
    | toolCall c =>
      by_cases h : c ∈ rids
      · simp [List.filter_cons, keepPart, h, List.filterMap_cons, toResultId, ih]
      · simp [List.filter_cons, keepPart, h, List.filterMap_cons, toResultId, ih]
    | toolResult c =>
      simp [List.filter_cons, keepPart, List.filterMap_cons, toResultId, ih]

/-- Sanitization never loses a tool result: the result ids of the sanitized
list are exactly those of the original list. -/
theorem resultIds_sanitizeWith (rids : List String) (ms : List RespMessage) :
    resultIds (sanitizeWith rids ms) = resultIds ms := by
  induction ms with
  | nil => rfl
  | cons m ms ih =>
    by_cases h : (m.content.filter (keepPart rids)).isEmpty
    · have hres : m.content.filterMap toResultId = [] := by
        rw [← filterMap_toResultId_filter rids]
        rw [List.isEmpty_iff] at h
        rw [h]
        rfl
      simp [sanitizeWith, List.filter_cons, filterMsg, h, resultIds, hres]
      simpa [sanitizeWith] using ih
    · simp [sanitizeWith, List.filter_cons, filterMsg, h, resultIds,
            filterMap_toResultId_filter]
      simpa [sanitizeWith] using ih

theorem sanitizeWith_idempotent (rids : List String) (ms : List RespMessage) :
    sanitizeWith rids (sanitizeWith rids ms) = sanitizeWith rids ms := by
  induction ms with
  | nil => rfl
  | cons m ms ih =>
    by_cases h : (m.content.filter (keepPart rids)).isEmpty
    · simp [sanitizeWith, List.filter_cons, filterMsg, h] at ih ⊢
      exact ih
    · simp [sanitizeWith, List.filter_cons, filterMsg, h] at ih ⊢
      exact ih

/-- C3: the message sanitizer is idempotent: sanitizing an already
sanitized message list changes nothing. -/
theorem sanitize_idempotent (ms : List RespMessage) :
    sanitizeResponseMessages (sanitizeResponseMessages ms) = sanitizeResponseMessages ms := by
  unfold sanitizeResponseMessages
  rw [resultIds_sanitizeWith]
  exact sanitizeWith_idempotent _ _

/-- The authenticated user inside a session, `session.user` with its optional
`id` field (the route checks `!session.user.id`). -/
structure SessionUser where
  id : Option String
deriving Repr, DecidableEq

/-- A session as returned by `auth()`; `user` is optional, matching the
route's `!session.user` check. -/
structure Session where
  user : Option SessionUser
deriving Repr, DecidableEq

/-- `session.user?.id`: the caller's user id when the session carries one. -/
def sessionUserId (s : Session) : Option String :=
  s.user.bind SessionUser.id

/-- A model configuration from `@/lib/ai/models`; the route only uses `id`
(compared with the request's `modelId`) and `apiIdentifier`. -/
structure Model where
  id : String
  apiIdentifier : String
deriving Repr, DecidableEq

/-- The body of a `POST` turn submission:
`{ id, messages, modelId }` destructured from `request.json()`. -/
structure PostRequest where
  id : String
  messages : List Message
  modelId : String
deriving Repr, DecidableEq

/-- Modelled from the spec: `getMostRecentUserMessage` (from `@/lib/utils`,
not under the provided sources) yields the most recent user-authored message
of the history, and nothing when the history contains no user-authored
message (the route then fails with `No user message found`). -/
def getMostRecentUserMessage (messages : List Message) : Option Message :=
  (messages.filter fun m => m.role == Role.user).getLast?

/-- The events of the data stream relayed to the client: the out-of-band
`writeData` metadata record (`{ type, content }`), text deltas, tool calls
and results, and the terminal finish event. -/
inductive StreamEvent
  | metadata (key : String) (content : String)
  | textDelta (s : String)
  | toolCall (name : String) (callId : String)
  | toolResult (callId : String) (content : String)
  | finish
deriving Repr, DecidableEq

/-- One observable effect of a request handler, in program order: collaborator
calls (`auth()`, `getChatById`, `generateTitleFromUserMessage`, `saveChat`,
`saveMessages`, `deleteChatById`), a `console.error` log line, the invocation
of `streamText`, and each event written to the client's stream. -/
inductive Effect
  | resolveSession
  | getChat (id : String)
  | generateTitle
  | saveChat (c : Chat)
  | saveMessages (rows : List StoredMessage)
  | deleteChat (id : String)
  | logError (msg : String)
  | genStart
  | write (e : StreamEvent)
deriving Repr, DecidableEq

/-- Whether an effect is a write of a stream event to the client. -/
def isWrite : Effect → Bool
  | Effect.write _ => true
  | _ => false

/-- Modelled from the spec: the observable outcome of one `streamText`
generation (the Streaming Generation Engine, §4.3): the text/tool events it
emits before its terminal finish event, and the complete generated message
list delivered to `onFinish` as `response.messages`. -/
structure Engine where
  events : List StreamEvent
  responseMessages : List RespMessage
deriving Repr, DecidableEq

/-- The environment one `POST` call runs in: the session `auth()` resolves
to, the chats currently in the store (so `getChatById` is lookup in this
list), the UUID `generateUUID()` returns, the title produced by
`generateTitleFromUserMessage`, the clock, the engine's behaviour, and
whether the finish-time `saveMessages` fails with a store error. -/
structure PostEnv where
  session : Option Session
  chats : List Chat
  freshId : String
  title : String
  now : Nat
  engine : Engine
  finishSaveFails : Bool
deriving Repr, DecidableEq

/-- A plain (non-streamed) HTTP response: body text and status code. -/
structure HttpResponse where
  body : String
  status : Nat
deriving Repr, DecidableEq

/-- The response of a `POST` call: an immediate non-streamed error response,
or the open streaming response created by `createDataStreamResponse`. -/
inductive PostResponse
  | immediate (r : HttpResponse)
  | stream (status : Nat)
deriving Repr, DecidableEq

/-- Everything observable about one `POST` call: its response, the ordered
effect trace, and any exception escaping the stream's execute/onFinish
callbacks (which would poison the client-visible stream). -/
structure PostResult where
  response : PostResponse
  effects : List Effect
  streamError : Option String
deriving Repr, DecidableEq

/-- The `saveMessages` collaborator call inside `onFinish`: it either
persists the rows or fails with a store-level error, as the spec's store
interface allows. -/
def saveMessagesCall (rows : List StoredMessage) (fails : Bool) :
    Except String (List Effect) :=
  if fails then Except.error "store error" else Except.ok [Effect.saveMessages rows]

/-- The `onFinish` callback of the `streamText` configuration: when the
closed-over session still carries a user id, sanitize `response.messages`,
map them to rows keeping each message's engine-assigned `id`, and try to
persist them; a store failure is caught and only logged (`console.error`).
Returns the effects performed and the exception escaping the callback, if
any. -/
def onFinish (session : Session) (chatId : String) (now : Nat)
    (responseMessages : List RespMessage) (saveFails : Bool) :
    List Effect × Option String :=
  match sessionUserId session with
  | none => ([], none)
  | some _ =>
    let sanitized := sanitizeResponseMessages responseMessages
    let rows := sanitized.map fun m =>
      { id := m.id, chatId := chatId, role := m.role,
        content := MsgContent.parts m.content, createdAt := now }
    match saveMessagesCall rows saveFails with
    | Except.ok effs => (effs, none)
    | Except.error _ => ([Effect.logError "Failed to save chat"], none)

/-- The `POST` turn-submission handler of `route.ts`, as a function of the
model catalog, the environment, and the request body.  It mirrors the
source's order: resolve the session (401 when absent or without user id),
resolve the model (404), find the most recent user message (400), look up the
chat and create it with a generated title when absent, persist the inbound
user message, then open the streaming response whose execute callback first
writes the `user-message-id` metadata event, starts `streamText`, relays the
engine's events, and runs `onFinish` at the terminal finish event. -/
def POST (models : List Model) (env : PostEnv) (req : PostRequest) : PostResult :=
  match env.session with
  | none =>
    { response := PostResponse.immediate ⟨"Unauthorized", 401⟩,
      effects := [Effect.resolveSession], streamError := none }
  | some session =>
    match sessionUserId session with
    | none =>
      { response := PostResponse.immediate ⟨"Unauthorized", 401⟩,
        effects := [Effect.resolveSession], streamError := none }
    | some uid =>
      match models.find? (fun m => m.id == req.modelId) with
      | none =>
        { response := PostResponse.immediate ⟨"Model not found", 404⟩,
          effects := [Effect.resolveSession], streamError := none }
      | some _model =>
        match getMostRecentUserMessage req.messages with
        | none =>
          { response := PostResponse.immediate ⟨"No user message found", 400⟩,
            effects := [Effect.resolveSession], streamError := none }
        | some userMessage =>
          let chatLookup := env.chats.find? fun c => c.id == req.id
          let createEffs : List Effect :=
            match chatLookup with
            | none => [Effect.generateTitle,
                       Effect.saveChat { id := req.id, userId := uid, title := env.title }]
            | some _ => []
          let userRow : StoredMessage :=
            { id := userMessage.id, chatId := req.id, role := userMessage.role,
              content := MsgContent.str userMessage.content, createdAt := env.now }
          let preStream : List Effect :=
            Effect.resolveSession :: Effect.getChat req.id ::
              (createEffs ++ [Effect.saveMessages [userRow]])
          let streamEffs : List Effect :=
            Effect.write (StreamEvent.metadata "user-message-id" env.freshId) ::
              Effect.genStart ::
              (env.engine.events.map Effect.write ++ [Effect.write StreamEvent.finish])
          let fin :=
            onFinish session req.id env.now env.engine.responseMessages env.finishSaveFails
          { response := PostResponse.stream 200,
            effects := preStream ++ streamEffs ++ fin.1,
            streamError := fin.2 }

/-- The environment one `DELETE` call runs in: the query-string `id` (absent
when the query lacks it), the session, the chats in the store, and whether
`deleteChatById` fails with a store error. -/
structure DeleteEnv where
  queryId : Option String
  session : Option Session
  chats : List Chat
  deleteFails : Bool
deriving Repr, DecidableEq

/-- Everything observable about one `DELETE` call. -/
structure DeleteResult where
  response : HttpResponse
  effects : List Effect
deriving Repr, DecidableEq

/-- The `DELETE` conversation handler of `route.ts`: 404 when the query has
no `id` (before `auth()` is called), 401 when unauthenticated, then inside a
try/catch: look up the chat (`getChatById` finds no row when the chat is
absent, so the subsequent `chat.userId` access throws and lands in the catch
block, returning 500), 401 when the caller is not the owner, otherwise delete
the chat and return 200; any store error is answered with 500. -/
def DELETE (env : DeleteEnv) : DeleteResult :=
  match env.queryId with
  | none => { response := ⟨"Not Found", 404⟩, effects := [] }
  | some id =>
    match env.session with
    | none =>
      { response := ⟨"Unauthorized", 401⟩, effects := [Effect.resolveSession] }
    | some session =>
      match session.user with
      | none =>
        { response := ⟨"Unauthorized", 401⟩, effects := [Effect.resolveSession] }
      | some u =>
        match env.chats.find? fun c => c.id == id with
        | none =>
          { response := ⟨"An error occurred while processing your request", 500⟩,
            effects := [Effect.resolveSession, Effect.getChat id] }
        | some chat =>
          if some chat.userId == u.id then
            if env.deleteFails then
              { response := ⟨"An error occurred while processing your request", 500⟩,
                effects := [Effect.resolveSession, Effect.getChat id] }
            else
              { response := ⟨"Chat deleted", 200⟩,
                effects := [Effect.resolveSession, Effect.getChat id,
                            Effect.deleteChat id] }
          else
            { response := ⟨"Unauthorized", 401⟩,
              effects := [Effect.resolveSession, Effect.getChat id] }

/-- The durable store's contents: chat records and message rows. -/
structure Store where
  chats : List Chat
  msgs : List StoredMessage
deriving Repr, DecidableEq

/-- How one effect changes the store: `saveChat` and `saveMessages` append,
`deleteChat` removes the chat and, transitively, its messages; everything
else leaves the store untouched. -/
def applyEffect (st : Store) : Effect → Store
  | Effect.saveChat c => { st with chats := st.chats ++ [c] }
  | Effect.saveMessages rows => { st with msgs := st.msgs ++ rows }
  | Effect.deleteChat id =>
      { chats := st.chats.filter fun c => !(c.id == id),
        msgs := st.msgs.filter fun m => !(m.chatId == id) }
  | _ => st

/-- Run an effect trace against the store. -/
def runStore (st : Store) : List Effect → Store
  | [] => st
  | e :: es => runStore (applyEffect st e) es

/-- The `allowed tools` catalog of the route: the trading tools, which are
all the active tools (`allTools = [...tradingTools]`). -/
def tradingTools : List String := ["getWalletAddress", "createEvmWallet"]

/-- The active tool subset passed to `streamText` as
`experimental_activeTools`. -/
def allTools : List String := tradingTools

/-- The `maxSteps` value of the `streamText` configuration in `POST`. -/
def streamTextMaxSteps : Nat := 5

/-- Modelled from the spec: at each model-decision step the engine either
emits text, calls exactly one declared tool (whose result is merged back as
a `tool-result` event before the next step), or signals completion; a fixed
step budget bounds the number of decisions per turn (§4.3). -/
inductive Decision
  | emitText (s : String)
  | callTool (name : String) (callId : String) (result : String)
  | complete
deriving Repr, DecidableEq

/-- Modelled from the spec: the engine's event stream for one turn under a
model-decision policy, with the remaining step budget as fuel: emitting text
or signalling completion ends the turn; a tool call emits the call and its
result and consumes one step of the budget. -/
def engineRun (d : Nat → Decision) : Nat → List StreamEvent
  | 0 => []
  | Nat.succ b =>
    match d (Nat.succ b) with
    | Decision.complete => []
    | Decision.emitText s => [StreamEvent.textDelta s]
    | Decision.callTool n cid r =>
        StreamEvent.toolCall n cid :: StreamEvent.toolResult cid r :: engineRun d b

/-- How many tool calls an event list contains. -/
def countToolCalls : List StreamEvent → Nat
  | [] => 0
  | StreamEvent.toolCall _ _ :: es => countToolCalls es + 1
  | _ :: es => countToolCalls es

/-- The row `POST` builds from the triggering user message
(`{ ...userMessage, createdAt: new Date(), chatId: id }`). -/
def userRow (um : Message) (chatId : String) (now : Nat) : StoredMessage :=
  { id := um.id, chatId := chatId, role := um.role,
    content := MsgContent.str um.content, createdAt := now }

/-- C1: when all preconditions pass, the chat record (created when absent)
and the triggering user message are persisted before generation is started
and before any stream event is written: the effect trace splits into a
prefix holding the saves, free of stream writes and of the `streamText`
invocation, followed by the rest. -/
theorem post_persists_before_stream
    (models : List Model) (env : PostEnv) (req : PostRequest)
    (s : Session) (uid : String) (mdl : Model) (um : Message)
    (hs : env.session = some s) (hu : sessionUserId s = some uid)
    (hm : models.find? (fun m => m.id == req.modelId) = some mdl)
    (hum : getMostRecentUserMessage req.messages = some um) :
    ∃ pre post,
      (POST models env req).effects = pre ++ post ∧
      (∀ e ∈ pre, isWrite e = false ∧ e ≠ Effect.genStart) ∧
      Effect.saveMessages [userRow um req.id env.now] ∈ pre ∧
      (env.chats.find? (fun c => c.id == req.id) = none →
        Effect.saveChat { id := req.id, userId := uid, title := env.title } ∈ pre) := by
  cases hfind : env.chats.find? fun c => c.id == req.id with
  | none =>
    refine ⟨[Effect.resolveSession, Effect.getChat req.id, Effect.generateTitle,
             Effect.saveChat { id := req.id, userId := uid, title := env.title },
             Effect.saveMessages [userRow um req.id env.now]],
            Effect.write (StreamEvent.metadata "user-message-id" env.freshId) ::
              Effect.genStart ::
              (env.engine.events.map Effect.write ++ [Effect.write StreamEvent.finish]) ++
              (onFinish s req.id env.now env.engine.responseMessages
                env.finishSaveFails).1, ?_, ?_, ?_, ?_⟩
    · simp [POST, hs, hu, hm, hum, hfind, userRow]
    · intro e he
      simp only [List.mem_cons, List.not_mem_nil, or_false] at he
      rcases he with rfl | rfl | rfl | rfl | rfl <;> simp [isWrite]
    · simp
    · intro _; simp
  | some c =>
    refine ⟨[Effect.resolveSession, Effect.getChat req.id,
             Effect.saveMessages [userRow um req.id env.now]],
            Effect.write (StreamEvent.metadata "user-message-id" env.freshId) ::
              Effect.genStart ::
              (env.engine.events.map Effect.write ++ [Effect.write StreamEvent.finish]) ++
              (onFinish s req.id env.now env.engine.responseMessages
                env.finishSaveFails).1, ?_, ?_, ?_, ?_⟩
    · simp [POST, hs, hu, hm, hum, hfind, userRow]
    · intro e he
      simp only [List.mem_cons, List.not_mem_nil, or_false] at he
      rcases he with rfl | rfl | rfl <;> simp [isWrite]
    · simp
    · intro h
      exact Option.noConfusion h

/-- C2: a store failure of the finish-time write-back is caught inside
`onFinish` and only logged: the response is still the open stream, no
exception escapes the stream callbacks, the terminal finish event is still
written, and the failure shows up only as the logged error line. -/
theorem post_finish_save_failure_swallowed
    (models : List Model) (env : PostEnv) (req : PostRequest)
    (s : Session) (uid : String) (mdl : Model) (um : Message)
    (hs : env.session = some s) (hu : sessionUserId s = some uid)
    (hm : models.find? (fun m => m.id == req.modelId) = some mdl)
    (hum : getMostRecentUserMessage req.messages = some um)
    (hfail : env.finishSaveFails = true) :
    (POST models env req).response = PostResponse.stream 200 ∧
    (POST models env req).streamError = none ∧
    Effect.write StreamEvent.finish ∈ (POST models env req).effects ∧
    Effect.logError "Failed to save chat" ∈ (POST models env req).effects := by
  refine ⟨?_, ?_, ?_, ?_⟩ <;>
    simp [POST, hs, hu, hm, hum, onFinish, saveMessagesCall, hfail]

/-- C4: each precondition failure is answered before any streaming or
persistence: a caller without an authenticated user id receives an immediate
non-streamed 401, an authenticated caller with an unknown model selector a
404, and one whose history has no user-authored message a 400; in each case
the only effect is the session lookup, so the store is left untouched. -/
theorem post_precondition_failures
    (models : List Model) (env : PostEnv) (req : PostRequest) :
    ((env.session.bind sessionUserId) = none →
      (POST models env req).response = PostResponse.immediate ⟨"Unauthorized", 401⟩ ∧
      (POST models env req).effects = [Effect.resolveSession] ∧
      ∀ st : Store, runStore st (POST models env req).effects = st) ∧
    (∀ s uid, env.session = some s → sessionUserId s = some uid →
      models.find? (fun m => m.id == req.modelId) = none →
      (POST models env req).response = PostResponse.immediate ⟨"Model not found", 404⟩ ∧
      (POST models env req).effects = [Effect.resolveSession] ∧
      ∀ st : Store, runStore st (POST models env req).effects = st) ∧
    (∀ s uid mdl, env.session = some s → sessionUserId s = some uid →
      models.find? (fun m => m.id == req.modelId) = some mdl →
      getMostRecentUserMessage req.messages = none →
      (POST models env req).response =
        PostResponse.immediate ⟨"No user message found", 400⟩ ∧
      (POST models env req).effects = [Effect.resolveSession] ∧
      ∀ st : Store, runStore st (POST models env req).effects = st) := by
  refine ⟨?_, ?_, ?_⟩
  · intro h
    cases hs : env.session with
    | none => simp [POST, hs, runStore, applyEffect]
    | some s =>
      rw [hs] at h
      simp only [Option.some_bind] at h
      simp [POST, hs, h, runStore, applyEffect]
  · intro s uid hs hu hm
    simp [POST, hs, hu, hm, runStore, applyEffect]
  · intro s uid mdl hs hu hm hum
    simp [POST, hs, hu, hm, hum, runStore, applyEffect]

/-- C5: on every successful turn submission the first event written to the
open stream is the metadata record keyed `user-message-id` carrying the
freshly generated UUID, ahead of all generation content. -/
theorem post_first_stream_event_metadata
    (models : List Model) (env : PostEnv) (req : PostRequest)
    (s : Session) (uid : String) (mdl : Model) (um : Message)
    (hs : env.session = some s) (hu : sessionUserId s = some uid)
    (hm : models.find? (fun m => m.id == req.modelId) = some mdl)
    (hum : getMostRecentUserMessage req.messages = some um) :
    (POST models env req).response = PostResponse.stream 200 ∧
    ((POST models env req).effects.filter isWrite).head? =
      some (Effect.write (StreamEvent.metadata "user-message-id" env.freshId)) := by
  constructor
  · simp [POST, hs, hu, hm, hum]
  · cases hfind : env.chats.find? fun c => c.id == req.id with
    | none =>
      simp [POST, hs, hu, hm, hum, hfind, List.filter_append, isWrite]
    | some c =>
      simp [POST, hs, hu, hm, hum, hfind, List.filter_append, isWrite]

/-- C6: an authenticated caller who does not own the chat gets 401 from
`DELETE` and nothing is deleted: the effect trace mutates no store, so chats
and messages are left intact. -/
theorem delete_non_owner_unauthorized
    (env : DeleteEnv) (id : String) (s : Session) (u : SessionUser) (chat : Chat)
    (hid : env.queryId = some id) (hs : env.session = some s) (hu : s.user = some u)
    (hc : env.chats.find? (fun c => c.id == id) = some chat)
    (hown : some chat.userId ≠ u.id) :
    (DELETE env).response = ⟨"Unauthorized", 401⟩ ∧
    (∀ eid, Effect.deleteChat eid ∉ (DELETE env).effects) ∧
    ∀ st : Store, runStore st (DELETE env).effects = st := by
  have hbeq : (some chat.userId == u.id) = false := by
    simp only [beq_eq_false_iff_ne, ne_eq]
    exact hown
  refine ⟨?_, ?_, ?_⟩ <;>
    simp [DELETE, hid, hs, hu, hc, hbeq, runStore, applyEffect]

/-- C7: deleting a chat that does not exist is no silent success: the lookup
comes back empty, the `chat.userId` access throws inside the try block, and
the catch answers with the 500 error response; nothing is deleted. -/
theorem delete_missing_chat_fails
    (env : DeleteEnv) (id : String) (s : Session) (u : SessionUser)
    (hid : env.queryId = some id) (hs : env.session = some s) (hu : s.user = some u)
    (hc : env.chats.find? (fun c => c.id == id) = none) :
    (DELETE env).response = ⟨"An error occurred while processing your request", 500⟩ ∧
    (DELETE env).response.status ≠ 200 ∧
    ∀ st : Store, runStore st (DELETE env).effects = st := by
  refine ⟨?_, ?_, ?_⟩ <;> simp [DELETE, hid, hs, hu, hc, runStore, applyEffect]

/-- C10: a `DELETE` whose query string has no `id` is answered 404 before
`auth()` is ever called: the trace holds no session resolution, so even an
unauthenticated caller sees 404 rather than 401. -/
theorem delete_missing_id_precedes_auth
    (env : DeleteEnv) (hid : env.queryId = none) :
    (DELETE env).response = ⟨"Not Found", 404⟩ ∧
    Effect.resolveSession ∉ (DELETE env).effects := by
  constructor <;> simp [DELETE, hid]

theorem countToolCalls_engineRun_le (d : Nat → Decision) :
    ∀ b, countToolCalls (engineRun d b) ≤ b := by
  intro b
  induction b with
  | zero => simp [engineRun, countToolCalls]
  | succ b ih =>
    cases hd : d (Nat.succ b) with
    | complete => simp [engineRun, hd, countToolCalls]
    | emitText s => simp [engineRun, hd, countToolCalls]
    | callTool n cid r =>
      simp only [engineRun, hd, countToolCalls]
      omega

/-- C8: the route configures the engine with a fixed budget of 5
model-decision steps (`maxSteps: 5`), and under the engine's step semantics
every turn run with that budget terminates with at most 5 tool calls,
whatever the model decides at each step. -/
theorem engine_step_budget_bounds_tool_calls :
    streamTextMaxSteps = 5 ∧
    ∀ d : Nat → Decision,
      countToolCalls (engineRun d streamTextMaxSteps) ≤ 5 := by
  refine ⟨rfl, fun d => ?_⟩
  exact countToolCalls_engineRun_le d streamTextMaxSteps

/-- Sanitization only ever drops messages or fragments, so every id of a
sanitized message is the id of one of the original messages. -/
theorem mem_id_sanitize {ms : List RespMessage} {i : String}
    (h : i ∈ (sanitizeResponseMessages ms).map RespMessage.id) :
    i ∈ ms.map RespMessage.id := by
  simp only [sanitizeResponseMessages, sanitizeWith, List.mem_map, List.mem_filter,
    List.mem_map] at h
  obtain ⟨m1, ⟨⟨m0, hm0, hf⟩, _⟩, hid⟩ := h
  subst hf
  simp only [List.mem_map]
  exact ⟨m0, hm0, hid⟩

/-- C9: the id announced in the initial `user-message-id` metadata event is
the fresh UUID, while the finish-time write-back keeps the engine-assigned
ids of the sanitized response messages; when the UUID is fresh with respect
to those ids, no persisted row of the write-back carries the announced
identifier. -/
theorem post_announced_id_not_persisted
    (models : List Model) (env : PostEnv) (req : PostRequest)
    (s : Session) (uid : String) (mdl : Model) (um : Message)
    (hs : env.session = some s) (hu : sessionUserId s = some uid)
    (hm : models.find? (fun m => m.id == req.modelId) = some mdl)
    (hum : getMostRecentUserMessage req.messages = some um)
    (hok : env.finishSaveFails = false)
    (hfresh : env.freshId ∉ env.engine.responseMessages.map RespMessage.id) :
    ∃ pre rows,
      (POST models env req).effects = pre ++ [Effect.saveMessages rows] ∧
      Effect.write (StreamEvent.metadata "user-message-id" env.freshId) ∈ pre ∧
      rows.map StoredMessage.id =
        (sanitizeResponseMessages env.engine.responseMessages).map RespMessage.id ∧
      env.freshId ∉ rows.map StoredMessage.id := by
  have hfin :
      onFinish s req.id env.now env.engine.responseMessages env.finishSaveFails =
        ([Effect.saveMessages
            ((sanitizeResponseMessages env.engine.responseMessages).map fun m =>
              ({ id := m.id, chatId := req.id, role := m.role,
                 content := MsgContent.parts m.content,
                 createdAt := env.now } : StoredMessage))], none) := by
    simp [onFinish, hu, saveMessagesCall, hok]
  have hids :
      ((sanitizeResponseMessages env.engine.responseMessages).map fun m =>
          ({ id := m.id, chatId := req.id, role := m.role,
             content := MsgContent.parts m.content,
             createdAt := env.now } : StoredMessage)).map StoredMessage.id =
        (sanitizeResponseMessages env.engine.responseMessages).map RespMessage.id := by
    simp [List.map_map]
  cases hfind : env.chats.find? fun c => c.id == req.id with
  | none =>
    refine ⟨[Effect.resolveSession, Effect.getChat req.id, Effect.generateTitle,
             Effect.saveChat { id := req.id, userId := uid, title := env.title },
             Effect.saveMessages [userRow um req.id env.now],
             Effect.write (StreamEvent.metadata "user-message-id" env.freshId),
             Effect.genStart] ++
              (env.engine.events.map Effect.write ++ [Effect.write StreamEvent.finish]),
            (sanitizeResponseMessages env.engine.responseMessages).map fun m =>
              { id := m.id, chatId := req.id, role := m.role,
                content := MsgContent.parts m.content, createdAt := env.now },
            ?_, ?_, hids, ?_⟩
    · simp [POST, hs, hu, hm, hum, hfind, hfin, userRow]
    · simp
    · rw [hids]
      intro hmem
      exact hfresh (mem_id_sanitize hmem)
  | some c =>
    refine ⟨[Effect.resolveSession, Effect.getChat req.id,
             Effect.saveMessages [userRow um req.id env.now],
             Effect.write (StreamEvent.metadata "user-message-id" env.freshId),
             Effect.genStart] ++
              (env.engine.events.map Effect.write ++ [Effect.write StreamEvent.finish]),
            (sanitizeResponseMessages env.engine.responseMessages).map fun m =>
              { id := m.id, chatId := req.id, role := m.role,
                content := MsgContent.parts m.content, createdAt := env.now },
            ?_, ?_, hids, ?_⟩
    · simp [POST, hs, hu, hm, hum, hfind, hfin, userRow]
    · simp
    · rw [hids]
      intro hmem
      exact hfresh (mem_id_sanitize hmem)

/- Concrete fixtures used by the witness theorems. -/

def wModel : Model := { id := "gpt-4o", apiIdentifier := "gpt-4o" }

def wModels : List Model := [wModel]

def wSessionUser : SessionUser := { id := some "user-1" }

def wSession : Session := { user := some wSessionUser }

def wUserMsg : Message := { id := "msg-1", role := Role.user, content := "get my wallet" }

def wRespMsg : RespMessage :=
  { id := "resp-1", role := Role.assistant, content := [Part.text "hi"] }

def wEngine : Engine :=
  { events := [StreamEvent.textDelta "hi"], responseMessages := [wRespMsg] }

def wEnv : PostEnv :=
  { session := some wSession, chats := [], freshId := "uuid-1",
    title := "Wallet chat", now := 0, engine := wEngine, finishSaveFails := false }

def wEnvFail : PostEnv :=
  { session := some wSession, chats := [], freshId := "uuid-1",
    title := "Wallet chat", now := 0, engine := wEngine, finishSaveFails := true }

def wEnvNoAuth : PostEnv :=
  { session := none, chats := [], freshId := "uuid-1",
    title := "Wallet chat", now := 0, engine := wEngine, finishSaveFails := false }

def wReq : PostRequest :=
  { id := "chat-1", messages := [wUserMsg], modelId := "gpt-4o" }

def wReqBadModel : PostRequest :=
  { id := "chat-1", messages := [wUserMsg], modelId := "model-x" }

def wReqNoUser : PostRequest :=
  { id := "chat-1", messages := [], modelId := "gpt-4o" }

def wChatOther : Chat := { id := "chat-1", userId := "user-2", title := "T" }

def wDelEnvNonOwner : DeleteEnv :=
  { queryId := some "chat-1", session := some wSession, chats := [wChatOther],
    deleteFails := false }

def wDelEnvMissing : DeleteEnv :=
  { queryId := some "chat-404", session := some wSession, chats := [],
    deleteFails := false }

def wDelEnvNoId : DeleteEnv :=
  { queryId := none, session := none, chats := [], deleteFails := false }

/-- Witness for C1 at a concrete new-chat turn submission. -/
theorem post_persists_before_stream_witness :
    ∃ pre post,
      (POST wModels wEnv wReq).effects = pre ++ post ∧
      (∀ e ∈ pre, isWrite e = false ∧ e ≠ Effect.genStart) ∧
      Effect.saveMessages [userRow wUserMsg wReq.id wEnv.now] ∈ pre ∧
      (wEnv.chats.find? (fun c => c.id == wReq.id) = none →
        Effect.saveChat { id := wReq.id, userId := "user-1", title := wEnv.title } ∈ pre) :=
  post_persists_before_stream wModels wEnv wReq wSession "user-1" wModel wUserMsg
    rfl rfl rfl rfl

/-- Witness for C2 at a concrete turn whose finish-time write fails. -/
theorem post_finish_save_failure_swallowed_witness :
    (POST wModels wEnvFail wReq).response = PostResponse.stream 200 ∧
    (POST wModels wEnvFail wReq).streamError = none ∧
    Effect.write StreamEvent.finish ∈ (POST wModels wEnvFail wReq).effects ∧
    Effect.logError "Failed to save chat" ∈ (POST wModels wEnvFail wReq).effects :=
  post_finish_save_failure_swallowed wModels wEnvFail wReq wSession "user-1" wModel
    wUserMsg rfl rfl rfl rfl rfl

/-- Witness for C4: concrete unauthenticated, unknown-model and
no-user-message submissions. -/
theorem post_precondition_failures_witness :
    ((POST wModels wEnvNoAuth wReq).response =
        PostResponse.immediate ⟨"Unauthorized", 401⟩ ∧
      (POST wModels wEnvNoAuth wReq).effects = [Effect.resolveSession] ∧
      ∀ st : Store, runStore st (POST wModels wEnvNoAuth wReq).effects = st) ∧
    ((POST wModels wEnv wReqBadModel).response =
        PostResponse.immediate ⟨"Model not found", 404⟩ ∧
      (POST wModels wEnv wReqBadModel).effects = [Effect.resolveSession] ∧
      ∀ st : Store, runStore st (POST wModels wEnv wReqBadModel).effects = st) ∧
    ((POST wModels wEnv wReqNoUser).response =
        PostResponse.immediate ⟨"No user message found", 400⟩ ∧
      (POST wModels wEnv wReqNoUser).effects = [Effect.resolveSession] ∧
      ∀ st : Store, runStore st (POST wModels wEnv wReqNoUser).effects = st) :=
  ⟨(post_precondition_failures wModels wEnvNoAuth wReq).1 rfl,
   (post_precondition_failures wModels wEnv wReqBadModel).2.1 wSession "user-1"
     rfl rfl rfl,
   (post_precondition_failures wModels wEnv wReqNoUser).2.2 wSession "user-1" wModel
     rfl rfl rfl rfl⟩

/-- Witness for C5 at a concrete turn submission. -/
theorem post_first_stream_event_metadata_witness :
    (POST wModels wEnv wReq).response = PostResponse.stream 200 ∧
    ((POST wModels wEnv wReq).effects.filter isWrite).head? =
      some (Effect.write (StreamEvent.metadata "user-message-id" wEnv.freshId)) :=
  post_first_stream_event_metadata wModels wEnv wReq wSession "user-1" wModel wUserMsg
    rfl rfl rfl rfl

/-- Witness for C6: user-1 tries to delete user-2's chat. -/
theorem delete_non_owner_unauthorized_witness :
    (DELETE wDelEnvNonOwner).response = ⟨"Unauthorized", 401⟩ ∧
    (∀ eid, Effect.deleteChat eid ∉ (DELETE wDelEnvNonOwner).effects) ∧
    ∀ st : Store, runStore st (DELETE wDelEnvNonOwner).effects = st :=
  delete_non_owner_unauthorized wDelEnvNonOwner "chat-1" wSession wSessionUser
    wChatOther rfl rfl rfl rfl (by decide)

/-- Witness for C7: deleting a chat id absent from the store. -/
theorem delete_missing_chat_fails_witness :
    (DELETE wDelEnvMissing).response =
      ⟨"An error occurred while processing your request", 500⟩ ∧
    (DELETE wDelEnvMissing).response.status ≠ 200 ∧
    ∀ st : Store, runStore st (DELETE wDelEnvMissing).effects = st :=
  delete_missing_chat_fails wDelEnvMissing "chat-404" wSession wSessionUser
    rfl rfl rfl rfl

/-- Witness for C10: an unauthenticated delete request with no id. -/
theorem delete_missing_id_precedes_auth_witness :
    (DELETE wDelEnvNoId).response = ⟨"Not Found", 404⟩ ∧
    Effect.resolveSession ∉ (DELETE wDelEnvNoId).effects :=
  delete_missing_id_precedes_auth wDelEnvNoId rfl

/-- Witness for C9 at a concrete turn with a fresh UUID. -/
theorem post_announced_id_not_persisted_witness :
    ∃ pre rows,
      (POST wModels wEnv wReq).effects = pre ++ [Effect.saveMessages rows] ∧
      Effect.write (StreamEvent.metadata "user-message-id" wEnv.freshId) ∈ pre ∧
      rows.map StoredMessage.id =
        (sanitizeResponseMessages wEnv.engine.responseMessages).map RespMessage.id ∧
      wEnv.freshId ∉ rows.map StoredMessage.id :=
  post_announced_id_not_persisted wModels wEnv wReq wSession "user-1" wModel wUserMsg
    rfl rfl rfl rfl rfl (by decide)

end ChatRoute
